import Mathlib

/-!
Verification of the gesture-recognition core of the ESP32 teeth-controller
firmware (`TeethInputManager.h` / `TeethInputManager.cpp`).

The embedding below is a shallow one: every C++ member function of
`TeethInputManager` becomes a Lean function over an explicit state record.
Timestamps are modelled as `Nat` milliseconds (the firmware uses monotonic
`unsigned long` millisecond counters; the theorems that depend on time
differences carry the monotonicity hypotheses under which truncated `Nat`
subtraction agrees with the firmware's unsigned subtraction).  The C++
`float duration` field is modelled as an exact rational number of seconds.
-/

namespace Teeth

/-- Debounce window in ms (`DEBOUNCE_TIME` in TeethInputManager.h). -/
def DEBOUNCE_TIME : Nat := 50

/-- Long-press threshold in ms (`LONG_PRESS_TIME` in TeethInputManager.h). -/
def LONG_PRESS_TIME : Nat := 800

/-- Slide budget per unique channel in ms (`SLIDE_MAX_INTERVAL`). -/
def SLIDE_MAX_INTERVAL : Nat := 300

/-- Quiescence window in ms (`MULTI_PRESS_WINDOW`). -/
def MULTI_PRESS_WINDOW : Nat := 500

/-- Per-channel switch state, mirroring `struct ButtonState`. -/
structure ButtonState where
  pin : Int
  currentState : Bool
  lastState : Bool
  pressStartTime : Nat
  lastChangeTime : Nat
  isPressed : Bool
deriving DecidableEq, Repr

/-- Classification result, mirroring `struct TeethInput`.  `duration` is the
C++ `float` seconds value, modelled as an exact rational. -/
structure TeethInput where
  isValid : Bool
  gesture : String
  teeth : List Int
  duration : Rat
deriving DecidableEq, Repr

/-- Default-constructed `TeethInput()` : invalid, empty gesture string,
no teeth, zero duration. -/
def TeethInput.init : TeethInput :=
  { isValid := false, gesture := "", teeth := [], duration := 0 }

/-- The gesture-accumulator fields of the manager (`currentGesture`,
`gestureStartTime`, `lastButtonTime`, `gestureActive`). -/
structure GestureAcc where
  currentGesture : List Int
  gestureStartTime : Nat
  lastButtonTime : Nat
  gestureActive : Bool
deriving DecidableEq, Repr

/-- Full mutable state of a `TeethInputManager` object. -/
structure ManagerState where
  buttons : List ButtonState
  currentGesture : List Int
  gestureStartTime : Nat
  lastButtonTime : Nat
  gestureActive : Bool
deriving DecidableEq, Repr

/-- Removal of consecutive duplicates, as `std::unique` + `erase` do on the
sorted copy in `getGestureType` and `analyzeGesture`. -/
def eraseAdjDup : List Int → List Int
  | [] => []
  | [a] => [a]
  | a :: b :: l => if a = b then eraseAdjDup (b :: l) else a :: eraseAdjDup (b :: l)

/-- The `std::sort` + `std::unique` + `erase` idiom of the source: sorted,
consecutive-duplicate-free copy of a press sequence.  (`std::sort` is
unstable, but on `Int` any sorted permutation of a list is unique, so a
concrete stable sort is a faithful model.) -/
def sortUnique (l : List Int) : List Int :=
  eraseAdjDup (l.insertionSort (· ≤ ·))

/-- The adjacency scan of `getGestureType` lines 144-150: `true` iff every
consecutive pair of the raw sequence differs by exactly 1 in absolute value. -/
def adjacentChain : List Int → Bool
  | [] => true
  | [_] => true
  | a :: b :: l => ((b - a).natAbs = 1 : Bool) && adjacentChain (b :: l)

/-- Embedding of `TeethInputManager::getGestureType` (TeethInputManager.cpp
lines 120-160). -/
def getGestureType (sequence : List Int) (duration : Nat) : String :=
  if sequence = [] then "unknown"
  else
    let uniqueButtons := sortUnique sequence
    let uniqueCount := uniqueButtons.length
    let totalPresses := sequence.length
    if uniqueCount = 1 then
      if duration > LONG_PRESS_TIME then "long_press"
      else if totalPresses > 1 then "multi_press"
      else "single_click"
    else if uniqueCount > 1 then
      if adjacentChain sequence && decide (duration < SLIDE_MAX_INTERVAL * uniqueCount)
      then "slide"
      else "multi_press"
    else "unknown"

/-- The result construction of `analyzeGesture` lines 94-105, for a completed
session with press list `presses` and total duration `totalDuration` ms. -/
def buildResult (presses : List Int) (totalDuration : Nat) : TeethInput :=
  { isValid := true
    gesture := getGestureType presses totalDuration
    teeth := sortUnique presses
    duration := (totalDuration : Rat) / 1000 }

/-- A freshly initialised `ButtonState` as set up in `init` lines 12-18. -/
def initButton (pin : Int) : ButtonState :=
  { pin := pin, currentState := false, lastState := false
    pressStartTime := 0, lastChangeTime := 0, isPressed := false }

/-- Embedding of `TeethInputManager::resetGesture` (lines 162-167). -/
def resetGesture (s : ManagerState) : ManagerState :=
  { s with currentGesture := [], gestureStartTime := 0
           lastButtonTime := 0, gestureActive := false }

/-- Embedding of `TeethInputManager::init` (lines 7-28): builds one fresh
`ButtonState` per supplied pin, in order, then resets the gesture state.
The source performs no validation of the pin list and has no failure path. -/
def initManager (buttonPins : List Int) : ManagerState :=
  { buttons := buttonPins.map initButton
    currentGesture := []
    gestureStartTime := 0
    lastButtonTime := 0
    gestureActive := false }

/-- One button's iteration of the loop body of `updateButtonStates`
(lines 38-74).  `reading` is the already-inverted raw sample
`!digitalRead(btn.pin)`; the gesture-accumulator fields are threaded through
because a debounced press edge appends to `currentGesture`. -/
def stepButton (now : Nat) (reading : Bool) (btn : ButtonState) (g : GestureAcc) :
    ButtonState × GestureAcc :=
  let lct := if reading ≠ btn.lastState then now else btn.lastChangeTime
  let bg :=
    if now - lct > DEBOUNCE_TIME then
      if reading ≠ btn.currentState then
        if reading then
          ({ btn with currentState := reading, lastChangeTime := lct
                      pressStartTime := now, isPressed := true },
           { currentGesture := g.currentGesture ++ [btn.pin]
             gestureStartTime := if ¬ g.gestureActive then now else g.gestureStartTime
             lastButtonTime := now
             gestureActive := true })
        else
          ({ btn with currentState := reading, lastChangeTime := lct
                      isPressed := false }, g)
      else ({ btn with lastChangeTime := lct }, g)
    else ({ btn with lastChangeTime := lct }, g)
  ({ bg.1 with lastState := reading }, bg.2)

/-- The loop of `updateButtonStates` over the button table, in order. -/
def updateButtons (now : Nat) (readings : Int → Bool) :
    List ButtonState → GestureAcc → List ButtonState × GestureAcc
  | [], g => ([], g)
  | btn :: rest, g =>
    let bg := stepButton now (readings btn.pin) btn g
    let rg := updateButtons now readings rest bg.2
    (bg.1 :: rg.1, rg.2)

/-- Embedding of `TeethInputManager::updateButtonStates` (lines 35-75).
`readings pin` is the inverted raw level of `pin` at this tick. -/
def updateButtonStates (now : Nat) (readings : Int → Bool) (s : ManagerState) :
    ManagerState :=
  let r := updateButtons now readings s.buttons
    ⟨s.currentGesture, s.gestureStartTime, s.lastButtonTime, s.gestureActive⟩
  { buttons := r.1
    currentGesture := r.2.currentGesture
    gestureStartTime := r.2.gestureStartTime
    lastButtonTime := r.2.lastButtonTime
    gestureActive := r.2.gestureActive }

/-- The `anyPressed` scan of `analyzeGesture` lines 82-88. -/
def anyPressed (s : ManagerState) : Bool :=
  s.buttons.any (·.isPressed)

/-- Embedding of `TeethInputManager::analyzeGesture` (lines 77-118): returns
the emitted `TeethInput` together with the post-call manager state. -/
def analyzeGesture (now : Nat) (s : ManagerState) : TeethInput × ManagerState :=
  if anyPressed s = false ∧ s.gestureActive = true ∧
      now - s.lastButtonTime > MULTI_PRESS_WINDOW then
    (if s.currentGesture ≠ [] then
       buildResult s.currentGesture (now - s.gestureStartTime)
     else TeethInput.init,
     resetGesture s)
  else (TeethInput.init, s)

/-- Embedding of `TeethInputManager::checkInput` (lines 30-33): one tick. -/
def checkInput (now : Nat) (readings : Int → Bool) (s : ManagerState) :
    TeethInput × ManagerState :=
  let s' := updateButtonStates now readings s
  analyzeGesture now s'

/-- The session invariant: the active flag is set exactly when the accumulated
press sequence is non-empty. -/
def sessionInv (s : ManagerState) : Prop :=
  s.gestureActive = true ↔ s.currentGesture ≠ []

/-- A concrete mid-session state (one press of channel 3 recorded at 100 ms,
button released) used to exercise the quiescence boundary. -/
def exampleStateC3 : ManagerState :=
  { buttons := [{ pin := 3, currentState := false, lastState := false
                  pressStartTime := 50, lastChangeTime := 90, isPressed := false }]
    currentGesture := [3]
    gestureStartTime := 50
    lastButtonTime := 100
    gestureActive := true }

/-- A concrete button state (stable pressed-raw reading since 10 ms, debounced
level still low) used to exercise the debounce policy. -/
def exampleButtonC4 : ButtonState :=
  { pin := 3, currentState := false, lastState := true, pressStartTime := 0
    lastChangeTime := 10, isPressed := false }

/-- A concrete idle gesture accumulator used alongside `exampleButtonC4`. -/
def exampleAccC4 : GestureAcc :=
  { currentGesture := [], gestureStartTime := 0, lastButtonTime := 0
    gestureActive := false }

/-- A concrete quiescent state with an (unreachable) active-but-empty session,
exercising the empty-press-list branch of `analyzeGesture`. -/
def exampleStateC7 : ManagerState :=
  { buttons := [initButton 2]
    currentGesture := []
    gestureStartTime := 0
    lastButtonTime := 0
    gestureActive := true }

/-- A concrete mid-session state satisfying the session invariant. -/
def exampleStateC9 : ManagerState :=
  { buttons := [{ pin := 3, currentState := true, lastState := true
                  pressStartTime := 60, lastChangeTime := 5, isPressed := true }]
    currentGesture := [3]
    gestureStartTime := 60
    lastButtonTime := 60
    gestureActive := true }

/-- Membership is preserved by consecutive-duplicate removal. -/
theorem mem_eraseAdjDup : ∀ (l : List Int) (a : Int), a ∈ eraseAdjDup l ↔ a ∈ l
  | [], _ => by simp [eraseAdjDup]
  | [_], _ => by simp [eraseAdjDup]
  | b :: c :: l, a => by
    by_cases h : b = c
    · subst h
      rw [eraseAdjDup, if_pos rfl, mem_eraseAdjDup (b :: l) a]
      simp only [List.mem_cons]
      tauto
    · rw [eraseAdjDup, if_neg h]
      simp only [List.mem_cons, mem_eraseAdjDup (c :: l) a]

/-- Consecutive-duplicate removal of a non-empty list is non-empty. -/
theorem eraseAdjDup_ne_nil : ∀ (l : List Int), l ≠ [] → eraseAdjDup l ≠ []
  | [], h => absurd rfl h
  | [a], _ => by simp [eraseAdjDup]
  | b :: c :: l, _ => by
    by_cases h : b = c
    · subst h
      rw [eraseAdjDup, if_pos rfl]
      exact eraseAdjDup_ne_nil (b :: l) (by simp)
    · rw [eraseAdjDup, if_neg h]
      simp

/-- On a weakly sorted list, removing consecutive duplicates yields a strictly
sorted list. -/
theorem sorted_lt_eraseAdjDup :
    ∀ (l : List Int), l.Sorted (· ≤ ·) → (eraseAdjDup l).Sorted (· < ·)
  | [], _ => by simp [eraseAdjDup]
  | [_], _ => by simp [eraseAdjDup]
  | b :: c :: l, h => by
    obtain ⟨hb, hcl⟩ := List.sorted_cons.mp h
    by_cases hbc : b = c
    · subst hbc
      rw [eraseAdjDup, if_pos rfl]
      exact sorted_lt_eraseAdjDup (b :: l) hcl
    · rw [eraseAdjDup, if_neg hbc, List.sorted_cons]
      have hbc' : b < c := lt_of_le_of_ne (hb c (by simp)) hbc
      refine ⟨?_, sorted_lt_eraseAdjDup (c :: l) hcl⟩
      intro x hx
      rcases List.mem_cons.mp ((mem_eraseAdjDup (c :: l) x).mp hx) with rfl | hxl
      · exact hbc'
      · exact lt_of_lt_of_le hbc' ((List.sorted_cons.mp hcl).1 x hxl)

/-- The result of `sortUnique` is strictly sorted ascending. -/
theorem sortUnique_sorted (l : List Int) : (sortUnique l).Sorted (· < ·) :=
  sorted_lt_eraseAdjDup _ (List.sorted_insertionSort _ l)

/-- `sortUnique` keeps exactly the members of the input. -/
theorem mem_sortUnique {a : Int} {l : List Int} : a ∈ sortUnique l ↔ a ∈ l := by
  rw [sortUnique, mem_eraseAdjDup]
  exact (List.perm_insertionSort _ l).mem_iff

/-- The result of `sortUnique` has no duplicates. -/
theorem sortUnique_nodup (l : List Int) : (sortUnique l).Nodup :=
  (sortUnique_sorted l).nodup

/-- The length of `sortUnique l` (the source's `uniqueCount`) is the number of
unique channels in `l`. -/
theorem sortUnique_length (l : List Int) :
    (sortUnique l).length = l.toFinset.card := by
  have hfin : (sortUnique l).toFinset = l.toFinset := by
    ext a
    simp [List.mem_toFinset, mem_sortUnique]
  rw [← hfin, List.toFinset_card_of_nodup (sortUnique_nodup l)]

/-- `sortUnique` of a non-empty list is non-empty. -/
theorem sortUnique_ne_nil {l : List Int} (h : l ≠ []) : sortUnique l ≠ [] := by
  rw [sortUnique]
  apply eraseAdjDup_ne_nil
  intro hnil
  have hperm := List.perm_insertionSort (· ≤ ·) l
  rw [hnil] at hperm
  exact h hperm.symm.eq_nil

/-- The adjacency scan holds exactly when every consecutive pair of the raw
press order differs by 1 in absolute value. -/
theorem adjacentChain_iff : ∀ (l : List Int),
    adjacentChain l = true ↔ l.Chain' (fun a b => (b - a).natAbs = 1)
  | [] => by simp [adjacentChain]
  | [a] => by simp [adjacentChain]
  | a :: b :: l => by
    rw [List.chain'_cons]
    simp only [adjacentChain, Bool.and_eq_true, decide_eq_true_eq,
      adjacentChain_iff (b :: l)]

/-- Shape of `getGestureType` when the press sequence holds exactly one unique
channel. -/
theorem getGestureType_single {p : List Int} (d : Nat)
    (h : (sortUnique p).length = 1) :
    getGestureType p d =
      if LONG_PRESS_TIME < d then "long_press"
      else if 1 < p.length then "multi_press" else "single_click" := by
  have hp : p ≠ [] := by
    rintro rfl
    simp [show sortUnique ([] : List Int) = [] from rfl] at h
  rw [getGestureType, if_neg hp]
  dsimp only
  rw [if_pos h]

/-- Shape of `getGestureType` when the press sequence holds more than one
unique channel. -/
theorem getGestureType_multi {p : List Int} (d : Nat)
    (h : 1 < (sortUnique p).length) :
    getGestureType p d =
      if adjacentChain p && decide (d < SLIDE_MAX_INTERVAL * (sortUnique p).length)
      then "slide" else "multi_press" := by
  have hp : p ≠ [] := by
    rintro rfl
    simp [show sortUnique ([] : List Int) = [] from rfl] at h
  have h1 : ¬ (sortUnique p).length = 1 := by omega
  rw [getGestureType, if_neg hp]
  dsimp only
  rw [if_neg h1, if_pos h]

/-- Concrete classifier vectors matching the behaviour observed in the
source: the adjacent run [2,3,4] within budget is a slide, the non-adjacent
pair [2,4] is not, a 900 ms hold is a long press, repeated short presses of
one channel are a multi-press, one short press is a single click, the empty
sequence is unknown, and a duplicate press inside a run breaks slide
adjacency (delta 0 between the duplicates). -/
theorem classifier_vectors :
    getGestureType [2, 3, 4] 250 = "slide"
    ∧ getGestureType [2, 4] 10 = "multi_press"
    ∧ getGestureType [3] 900 = "long_press"
    ∧ getGestureType [3, 3] 300 = "multi_press"
    ∧ getGestureType [3] 300 = "single_click"
    ∧ getGestureType [] 300 = "unknown"
    ∧ getGestureType [2, 2, 3] 100 = "multi_press"
    ∧ sortUnique [5, 3, 5, 2] = [2, 3, 5] := by
  decide

/-- C1: for every press sequence with more than one unique channel, the
classifier returns "slide" iff every consecutive pair of the original,
non-deduplicated press order differs by exactly 1 in absolute value and the
duration is strictly below `SLIDE_MAX_INTERVAL` (300 ms) times the number of
unique channels; otherwise it returns "multi_press".  Instantiating at the
sequence [2, 4] (where adjacency fails) shows [2, 4] is never "slide". -/
theorem teeth_C1 (p : List Int) (d : Nat) (h : 1 < p.toFinset.card) :
    (getGestureType p d = "slide" ↔
      (List.Chain' (fun a b : Int => (b - a).natAbs = 1) p ∧
        d < SLIDE_MAX_INTERVAL * p.toFinset.card))
    ∧ (getGestureType p d = "slide" ∨ getGestureType p d = "multi_press") := by
  have hlen : 1 < (sortUnique p).length := by
    rw [sortUnique_length]
    exact h
  rw [getGestureType_multi d hlen, sortUnique_length p]
  by_cases hc :
      (adjacentChain p && decide (d < SLIDE_MAX_INTERVAL * p.toFinset.card)) = true
  · rw [if_pos hc]
    rw [Bool.and_eq_true, decide_eq_true_eq] at hc
    exact ⟨⟨fun _ => ⟨(adjacentChain_iff p).mp hc.1, hc.2⟩, fun _ => rfl⟩, Or.inl rfl⟩
  · rw [if_neg hc]
    rw [Bool.and_eq_true, decide_eq_true_eq] at hc
    refine ⟨⟨fun hs => absurd hs (by decide), ?_⟩, Or.inr rfl⟩
    intro hcc
    exact absurd ⟨(adjacentChain_iff p).mpr hcc.1, hcc.2⟩ hc

/-- Witness for C1: [2,3,4] in 250 ms is a slide; [2,4] is not a slide even at
a tiny duration, falling to "multi_press". -/
theorem teeth_C1_witness :
    getGestureType [2, 3, 4] 250 = "slide" ∧
    getGestureType [2, 4] 10 = "multi_press" := by
  constructor
  · exact (teeth_C1 [2, 3, 4] 250 (by decide)).1.mpr
      ⟨(adjacentChain_iff [2, 3, 4]).mp (by decide), by decide⟩
  · rcases (teeth_C1 [2, 4] 10 (by decide)).2 with hs | hm
    · have hch := ((teeth_C1 [2, 4] 10 (by decide)).1.mp hs).1
      exact absurd ((adjacentChain_iff [2, 4]).mpr hch) (by decide)
    · exact hm

/-- C2: for every press sequence with exactly one unique channel, the
classifier returns "long_press" when the duration exceeds `LONG_PRESS_TIME`
(800 ms) regardless of the press count; otherwise "multi_press" when the
total press count (duplicates included) exceeds 1; otherwise
"single_click". -/
theorem teeth_C2 (p : List Int) (d : Nat) (h : p.toFinset.card = 1) :
    (LONG_PRESS_TIME < d → getGestureType p d = "long_press")
    ∧ (d ≤ LONG_PRESS_TIME → 1 < p.length → getGestureType p d = "multi_press")
    ∧ (d ≤ LONG_PRESS_TIME → p.length = 1 → getGestureType p d = "single_click") := by
  have hlen : (sortUnique p).length = 1 := by
    rw [sortUnique_length]
    exact h
  rw [getGestureType_single d hlen]
  refine ⟨fun hd => ?_, fun hd hl => ?_, fun hd hl => ?_⟩
  · rw [if_pos hd]
  · rw [if_neg (not_lt.mpr hd), if_pos hl]
  · rw [if_neg (not_lt.mpr hd), if_neg (by omega)]

/-- Witness for C2: a 900 ms hold of channel 5 is "long_press" (even pressed
thrice), three short presses of channel 3 are "multi_press", one short press
of channel 3 is "single_click". -/
theorem teeth_C2_witness :
    getGestureType [5, 5, 5] 900 = "long_press"
    ∧ getGestureType [3, 3, 3] 300 = "multi_press"
    ∧ getGestureType [3] 300 = "single_click" :=
  ⟨(teeth_C2 [5, 5, 5] 900 (by decide)).1 (by decide),
   (teeth_C2 [3, 3, 3] 300 (by decide)).2.1 (by decide) (by decide),
   (teeth_C2 [3] 300 (by decide)).2.2 (by decide) (by decide)⟩

/-- C5 counterexample: initialization does not fail on an empty or
duplicate-containing channel list.  `initManager` (the embedding of
`TeethInputManager::init`, which has no failure path in the source) completes
normally on both `[]` and `[2, 2]`, producing a fully constructed manager
state — refuting the claim that the core refuses to start on these inputs. -/
theorem teeth_C5_counterexample :
    initManager [] =
      { buttons := [], currentGesture := [], gestureStartTime := 0
        lastButtonTime := 0, gestureActive := false }
    ∧ initManager [2, 2] =
      { buttons := [initButton 2, initButton 2], currentGesture := []
        gestureStartTime := 0, lastButtonTime := 0, gestureActive := false } :=
  ⟨rfl, rfl⟩

/-- C5 (amended): initialization never fails; `init` accepts every channel
list — empty and duplicate-containing lists included — creating one fresh
button record per entry, in order, and resetting the gesture state. -/
theorem teeth_C5 (pins : List Int) :
    (initManager pins).buttons.map ButtonState.pin = pins
    ∧ (initManager pins).buttons.length = pins.length
    ∧ (initManager pins).currentGesture = []
    ∧ (initManager pins).gestureActive = false := by
  refine ⟨?_, ?_, rfl, rfl⟩
  · simp [initManager, initButton, List.map_map, Function.comp_def]
  · simp [initManager]

/-- C6: for every non-empty press sequence, the completed-session result has
`isValid = true`, its teeth list is the press sequence deduplicated (strictly
ascending, same members) and its duration is the session duration in
milliseconds divided by 1000, exactly. -/
theorem teeth_C6 (p : List Int) (d : Nat) (hne : p ≠ []) :
    (buildResult p d).isValid = true
    ∧ (buildResult p d).teeth.Sorted (· < ·)
    ∧ (∀ x : Int, x ∈ (buildResult p d).teeth ↔ x ∈ p)
    ∧ (buildResult p d).duration = (d : Rat) / 1000 := by
  refine ⟨rfl, sortUnique_sorted p, fun x => mem_sortUnique, rfl⟩

/-- Witness for C6 at the press sequence [5, 3, 5] with a 900 ms duration. -/
theorem teeth_C6_witness :
    (buildResult [5, 3, 5] 900).isValid = true
    ∧ (buildResult [5, 3, 5] 900).teeth.Sorted (· < ·)
    ∧ (∀ x : Int, x ∈ (buildResult [5, 3, 5] 900).teeth ↔ x ∈ [5, 3, 5])
    ∧ (buildResult [5, 3, 5] 900).duration = (900 : Rat) / 1000 :=
  teeth_C6 [5, 3, 5] 900 (by decide)

/-- C8: the classifier is deterministic — identical `(presses, duration)`
inputs yield identical results in every field; the embedding takes no other
state, mirroring the source body which reads only its two arguments and
compile-time constants. -/
theorem teeth_C8 (p₁ p₂ : List Int) (d₁ d₂ : Nat) (hp : p₁ = p₂) (hd : d₁ = d₂) :
    (buildResult p₁ d₁).gesture = (buildResult p₂ d₂).gesture
    ∧ (buildResult p₁ d₁).teeth = (buildResult p₂ d₂).teeth
    ∧ (buildResult p₁ d₁).duration = (buildResult p₂ d₂).duration
    ∧ (buildResult p₁ d₁).isValid = (buildResult p₂ d₂).isValid := by
  subst hp
  subst hd
  exact ⟨rfl, rfl, rfl, rfl⟩

/-- Witness for C8 at the input ([3], 100), given twice. -/
theorem teeth_C8_witness :
    (buildResult [3] 100).gesture = (buildResult [3] 100).gesture
    ∧ (buildResult [3] 100).teeth = (buildResult [3] 100).teeth
    ∧ (buildResult [3] 100).duration = (buildResult [3] 100).duration
    ∧ (buildResult [3] 100).isValid = (buildResult [3] 100).isValid :=
  teeth_C8 [3] [3] 100 100 rfl rfl

/-- C10: for every non-empty press sequence and every duration, the classifier
returns one of the four named categories and never "unknown": the final
fallthrough branch is unreachable because a non-empty sequence has at least
one unique channel. -/
theorem teeth_C10 (p : List Int) (d : Nat) (h : p ≠ []) :
    (getGestureType p d = "single_click" ∨ getGestureType p d = "long_press"
      ∨ getGestureType p d = "multi_press" ∨ getGestureType p d = "slide")
    ∧ getGestureType p d ≠ "unknown" := by
  have hlen : (sortUnique p).length ≠ 0 := by
    intro h0
    exact sortUnique_ne_nil h (List.eq_nil_of_length_eq_zero h0)
  have hcases : getGestureType p d = "single_click" ∨ getGestureType p d = "long_press"
      ∨ getGestureType p d = "multi_press" ∨ getGestureType p d = "slide" := by
    rcases Nat.lt_or_ge 1 (sortUnique p).length with hgt | hle
    · rw [getGestureType_multi d hgt]
      split
      · right; right; right; rfl
      · right; right; left; rfl
    · have h1 : (sortUnique p).length = 1 := by omega
      rw [getGestureType_single d h1]
      split
      · right; left; rfl
      · split
        · right; right; left; rfl
        · left; rfl
  refine ⟨hcases, ?_⟩
  rcases hcases with h1 | h1 | h1 | h1 <;> rw [h1] <;> decide

/-- Witness for C10 at the one-press sequence [7] with a 100 ms duration. -/
theorem teeth_C10_witness :
    (getGestureType [7] 100 = "single_click" ∨ getGestureType [7] 100 = "long_press"
      ∨ getGestureType [7] 100 = "multi_press" ∨ getGestureType [7] 100 = "slide")
    ∧ getGestureType [7] 100 ≠ "unknown" :=
  teeth_C10 [7] 100 (by decide)

/-- C3: in a tick, the session completes — a valid classification is produced
and the accumulator is reset — exactly when the session is active, no channel
is currently pressed, and strictly more than `MULTI_PRESS_WINDOW` (500 ms)
has elapsed since the last press edge.  The hypothesis is the session
invariant (an active session has recorded at least one press), which holds in
every reachable state.  The strict comparison gives the boundary behaviour:
no completion at `lastButtonTime + 500`, completion at `lastButtonTime +
501`. -/
theorem teeth_C3 (s : ManagerState) (now : Nat)
    (hinv : s.gestureActive = true → s.currentGesture ≠ []) :
    ((analyzeGesture now s).1.isValid = true ∧
        (analyzeGesture now s).2 = resetGesture s)
      ↔ (s.gestureActive = true ∧ anyPressed s = false ∧
          now - s.lastButtonTime > MULTI_PRESS_WINDOW) := by
  by_cases hc : anyPressed s = false ∧ s.gestureActive = true ∧
      now - s.lastButtonTime > MULTI_PRESS_WINDOW
  · rw [analyzeGesture, if_pos hc]
    have hne : s.currentGesture ≠ [] := hinv hc.2.1
    rw [if_pos hne]
    exact ⟨fun _ => ⟨hc.2.1, hc.1, hc.2.2⟩, fun _ => ⟨rfl, rfl⟩⟩
  · rw [analyzeGesture, if_neg hc]
    constructor
    · rintro ⟨hv, -⟩
      exact absurd hv (by simp [TeethInput.init])
    · rintro ⟨h1, h2, h3⟩
      exact absurd ⟨h2, h1, h3⟩ hc

/-- Witness for C3 at the quiescence boundary: with the last press edge at
100 ms, the tick at 600 ms (elapsed exactly 500 ms) does not complete the
session, while the tick at 601 ms does. -/
theorem teeth_C3_witness :
    (¬ ((analyzeGesture 600 exampleStateC3).1.isValid = true ∧
        (analyzeGesture 600 exampleStateC3).2 = resetGesture exampleStateC3))
    ∧ ((analyzeGesture 601 exampleStateC3).1.isValid = true ∧
        (analyzeGesture 601 exampleStateC3).2 = resetGesture exampleStateC3) := by
  constructor
  · intro hc
    have h := (teeth_C3 exampleStateC3 600 (by decide)).mp hc
    exact absurd h.2.2 (by decide)
  · exact (teeth_C3 exampleStateC3 601 (by decide)).mpr (by decide)

/-- C4: per channel and tick, (1) a raw level change is accepted as the new
debounced level only if the raw reading equals the stored last raw sample and
at least `DEBOUNCE_TIME` (50 ms) has passed since the last raw transition;
(2) a raw flip occurring within `DEBOUNCE_TIME` of the previous flip on the
same channel changes neither the debounced level nor `isPressed` and appends
nothing to the accumulated press sequence. -/
theorem teeth_C4 (btn : ButtonState) (g : GestureAcc) (now : Nat) (reading : Bool) :
    ((stepButton now reading btn g).1.currentState ≠ btn.currentState →
      reading = btn.lastState ∧ DEBOUNCE_TIME ≤ now - btn.lastChangeTime)
    ∧ (reading ≠ btn.lastState → now - btn.lastChangeTime ≤ DEBOUNCE_TIME →
      (stepButton now reading btn g).1.isPressed = btn.isPressed ∧
      (stepButton now reading btn g).1.currentState = btn.currentState ∧
      (stepButton now reading btn g).2 = g) := by
  constructor
  · intro hcs
    by_cases hf : reading = btn.lastState
    · by_cases hd : now - btn.lastChangeTime > DEBOUNCE_TIME
      · exact ⟨hf, le_of_lt hd⟩
      · exfalso
        apply hcs
        simp [stepButton, hf, hd]
    · exfalso
      apply hcs
      simp [stepButton, hf, DEBOUNCE_TIME]
  · intro hflip _
    have hf : ¬ reading = btn.lastState := hflip
    refine ⟨?_, ?_, ?_⟩ <;> simp [stepButton, hf, DEBOUNCE_TIME]

/-- Witness for C4: an accepted edge at 100 ms (stable raw reading since
10 ms, 90 ms > 50 ms elapsed) satisfies the acceptance conditions, and a raw
flip at 30 ms (20 ms ≤ 50 ms after the previous flip at 10 ms) leaves the
debounced state, `isPressed`, and the accumulator untouched. -/
theorem teeth_C4_witness :
    (true = exampleButtonC4.lastState ∧
      DEBOUNCE_TIME ≤ 100 - exampleButtonC4.lastChangeTime)
    ∧ ((stepButton 30 false exampleButtonC4 exampleAccC4).1.isPressed
        = exampleButtonC4.isPressed
      ∧ (stepButton 30 false exampleButtonC4 exampleAccC4).1.currentState
        = exampleButtonC4.currentState
      ∧ (stepButton 30 false exampleButtonC4 exampleAccC4).2 = exampleAccC4) :=
  ⟨(teeth_C4 exampleButtonC4 exampleAccC4 100 true).1 (by decide),
   (teeth_C4 exampleButtonC4 exampleAccC4 30 false).2 (by decide) (by decide)⟩

/-- C7: an empty press list yields the "unknown" category from the classifier
and an invalid (`isValid = false`) result from the tick analysis, so no
gesture is emitted; no error is raised anywhere (the embedding is total). -/
theorem teeth_C7 (d : Nat) (now : Nat) (s : ManagerState)
    (hempty : s.currentGesture = []) :
    getGestureType [] d = "unknown"
    ∧ (analyzeGesture now s).1.isValid = false := by
  refine ⟨rfl, ?_⟩
  rw [analyzeGesture]
  split
  · simp [hempty, TeethInput.init]
  · rfl

/-- Witness for C7 on a quiescent state with an empty press list at 900 ms. -/
theorem teeth_C7_witness :
    getGestureType [] 250 = "unknown"
    ∧ (analyzeGesture 900 exampleStateC7).1.isValid = false :=
  teeth_C7 250 900 exampleStateC7 (by decide)

/-- One debounce step either leaves the accumulator untouched or appends the
button's pin as a press edge, activating the session. -/
theorem stepButton_acc_cases (now : Nat) (reading : Bool) (btn : ButtonState)
    (g : GestureAcc) :
    (stepButton now reading btn g).2 = g ∨
    (stepButton now reading btn g).2 =
      { currentGesture := g.currentGesture ++ [btn.pin]
        gestureStartTime := if ¬ g.gestureActive then now else g.gestureStartTime
        lastButtonTime := now
        gestureActive := true } := by
  rw [stepButton]
  dsimp only
  repeat' split
  all_goals first
    | exact Or.inl rfl
    | exact Or.inr rfl

/-- The invariant of the accumulator fields is preserved by the button-table
update loop. -/
theorem updateButtons_acc : ∀ (bs : List ButtonState) (g : GestureAcc) (now : Nat)
    (readings : Int → Bool),
    (g.gestureActive = true ↔ g.currentGesture ≠ []) →
    ((updateButtons now readings bs g).2.gestureActive = true ↔
      (updateButtons now readings bs g).2.currentGesture ≠ [])
  | [], _, _, _, h => h
  | btn :: rest, g, now, readings, h => by
    rw [updateButtons]
    dsimp only
    apply updateButtons_acc rest _ now readings
    rcases stepButton_acc_cases now (readings btn.pin) btn g with he | he
    · rw [he]
      exact h
    · rw [he]
      simp

/-- The session invariant is preserved by `updateButtonStates`. -/
theorem updateButtonStates_inv (now : Nat) (readings : Int → Bool)
    (s : ManagerState) (h : sessionInv s) :
    sessionInv (updateButtonStates now readings s) := by
  rw [sessionInv] at h ⊢
  rw [updateButtonStates]
  exact updateButtons_acc s.buttons
    ⟨s.currentGesture, s.gestureStartTime, s.lastButtonTime, s.gestureActive⟩
    now readings h

/-- The session invariant is preserved by `analyzeGesture`. -/
theorem analyzeGesture_inv (now : Nat) (s : ManagerState) (h : sessionInv s) :
    sessionInv (analyzeGesture now s).2 := by
  rw [analyzeGesture]
  split
  · simp [sessionInv, resetGesture]
  · exact h

/-- A valid tick result always carries a non-empty teeth list: the result is
built only from a non-empty accumulated press sequence. -/
theorem analyzeGesture_valid_teeth (now : Nat) (s : ManagerState)
    (hval : (analyzeGesture now s).1.isValid = true) :
    (analyzeGesture now s).1.teeth ≠ [] := by
  by_cases hcond : anyPressed s = false ∧ s.gestureActive = true ∧
      now - s.lastButtonTime > MULTI_PRESS_WINDOW
  · by_cases hne : s.currentGesture ≠ []
    · rw [analyzeGesture, if_pos hcond, if_pos hne]
      exact sortUnique_ne_nil hne
    · rw [analyzeGesture, if_pos hcond, if_neg hne] at hval
      exact absurd hval (by simp [TeethInput.init])
  · rw [analyzeGesture, if_neg hcond] at hval
    exact absurd hval (by simp [TeethInput.init])

/-- C9: the session invariant — the active flag is set exactly when the
accumulated press sequence is non-empty — is established by `init` and
`resetGesture` and preserved by every tick of `checkInput`; moreover any tick
that emits a valid gesture emits a non-empty teeth list. -/
theorem teeth_C9 :
    (∀ pins : List Int, sessionInv (initManager pins))
    ∧ (∀ (s : ManagerState) (now : Nat) (readings : Int → Bool),
        sessionInv s → sessionInv (checkInput now readings s).2)
    ∧ (∀ s : ManagerState, sessionInv (resetGesture s))
    ∧ (∀ (s : ManagerState) (now : Nat) (readings : Int → Bool),
        (checkInput now readings s).1.isValid = true →
        (checkInput now readings s).1.teeth ≠ []) := by
  refine ⟨?_, ?_, ?_, ?_⟩
  · intro pins
    simp [sessionInv, initManager]
  · intro s now readings h
    exact analyzeGesture_inv now _ (updateButtonStates_inv now readings s h)
  · intro s
    simp [sessionInv, resetGesture]
  · intro s now readings hval
    exact analyzeGesture_valid_teeth now _ hval

/-- Witness for C9: one quiet tick at 1000 ms from a concrete mid-session
state preserves the session invariant. -/
theorem teeth_C9_witness :
    sessionInv (checkInput 1000 (fun _ => false) exampleStateC9).2 :=
  teeth_C9.2.1 exampleStateC9 1000 (fun _ => false)
    (by simp [sessionInv, exampleStateC9])

end Teeth
